import Mathlib

/-!
Shallow embedding of the turn-taking orchestrator (the `wss.on("connection")`
handler of the server): per-connection coordinator state, the pure text
heuristics (coverage tracking, interruption routing), and the event handlers,
translated from the TypeScript source. Provider and client sockets are
modelled by boolean openness flags carried in the state; messages sent to the
provider or to the client become elements of an `Output` list. The client
socket is assumed open (a closed client socket only drops outbound messages
in the source and never changes coordinator state). Timer delays
(`setTimeout` with `delayMs`) only postpone a send in the source; they are
modelled as immediate emissions, with socket openness read at call time.
-/

namespace Interview

/-- The two AI roles: `ai_a` is the Interviewer, `ai_b` the Candidate. -/
inductive AiKey
  | ai_a
  | ai_b
deriving DecidableEq

/-- The other role (`key === "ai_a" ? "ai_b" : "ai_a"`). -/
def otherKey : AiKey → AiKey
  | .ai_a => .ai_b
  | .ai_b => .ai_a

/-- A per-role record, mirroring the `Record<AiKey, T>` objects of the source. -/
structure RoleMap (α : Type) where
  a : α
  b : α
deriving DecidableEq

def RoleMap.get {α : Type} (m : RoleMap α) : AiKey → α
  | .ai_a => m.a
  | .ai_b => m.b

def RoleMap.set {α : Type} (m : RoleMap α) (k : AiKey) (v : α) : RoleMap α :=
  match k with
  | .ai_a => { m with a := v }
  | .ai_b => { m with b := v }

/-- `MIN_TURNS` constant of the source. -/
def MIN_TURNS : Nat := 20

/-- `MAX_TURNS` constant of the source. -/
def MAX_TURNS : Nat := 40

/-- Characters matched by the JavaScript regex class `\s` (also the set
removed by `String.prototype.trim`). -/
def isJsSpace (c : Char) : Bool :=
  (0x9 ≤ c.toNat && c.toNat ≤ 0xd) || c.toNat == 0x20 || c.toNat == 0xa0 ||
  c.toNat == 0x1680 || (0x2000 ≤ c.toNat && c.toNat ≤ 0x200a) ||
  c.toNat == 0x2028 || c.toNat == 0x2029 || c.toNat == 0x202f ||
  c.toNat == 0x205f || c.toNat == 0x3000 || c.toNat == 0xfeff

/-- `text.replace(/\s+/g, "")`: delete every whitespace character. -/
def stripWs (s : String) : String :=
  String.mk (s.toList.filter (fun c => !isJsSpace c))

/-- `String.prototype.trim()`: drop whitespace from both ends. -/
def jsTrim (s : String) : String :=
  String.mk (((s.toList.dropWhile isJsSpace).reverse.dropWhile isJsSpace).reverse)

/-- Does the character list start with `needle`? -/
def matchesAt : List Char → List Char → Bool
  | [], _ => true
  | _ :: _, [] => false
  | n :: ns, h :: hs => n == h && matchesAt ns hs

/-- Does `haystack` contain `needle` as a contiguous sublist? -/
def hasSubList (needle : List Char) : List Char → Bool
  | [] => needle.isEmpty
  | c :: rest => matchesAt needle (c :: rest) || hasSubList needle rest

/-- JavaScript `haystack.includes(needle)` / a literal-alternation regex test:
substring containment. -/
def containsSub (haystack needle : String) : Bool :=
  hasSubList needle.toList haystack.toList

/-- Does the (already normalized) text contain any of the given keywords? -/
def hitsAny (normalized : String) (keys : List String) : Bool :=
  keys.any (fun w => containsSub normalized w)

/-- The six coverage topics, in the declaration order of the source record. -/
inductive CoverageKey
  | experience
  | motivation
  | language
  | shift
  | stamina
  | visa
deriving DecidableEq

/-- The `coverage` record: six independent booleans. -/
structure Coverage where
  experience : Bool
  motivation : Bool
  language : Bool
  shift : Bool
  stamina : Bool
  visa : Bool
deriving DecidableEq

/-- All-false coverage (initial value and the value reset on `start`). -/
def covInit : Coverage :=
  { experience := false, motivation := false, language := false,
    shift := false, stamina := false, visa := false }

/-- Alternatives of the regex `/経験|前職|介護|業務|仕事|働い|勤務/`. -/
def experienceKeys : List String := ["経験", "前職", "介護", "業務", "仕事", "働い", "勤務"]

/-- Alternatives of the regex `/志望|理由|動機|なぜ|きっかけ|やりたい|興味/`. -/
def motivationKeys : List String := ["志望", "理由", "動機", "なぜ", "きっかけ", "やりたい", "興味"]

/-- Alternatives of the regex `/日本語|会話|コミュニケーション|聞き取り|読み|書き/`. -/
def languageKeys : List String := ["日本語", "会話", "コミュニケーション", "聞き取り", "読み", "書き"]

/-- Alternatives of the regex `/シフト|夜勤|早番|遅番|勤務時間|週|時間帯|休み/`. -/
def shiftKeys : List String := ["シフト", "夜勤", "早番", "遅番", "勤務時間", "週", "時間帯", "休み"]

/-- Alternatives of the regex `/体力|健康|腰|持病|疲れ|力/`. -/
def staminaKeys : List String := ["体力", "健康", "腰", "持病", "疲れ", "力"]

/-- Alternatives of the regex `/ビザ|在留|滞在|資格|就労|期間|入社|開始日|いつから/`. -/
def visaKeys : List String := ["ビザ", "在留", "滞在", "資格", "就労", "期間", "入社", "開始日", "いつから"]

/-- `updateCoverage(text)`: normalize whitespace away; if the result is empty
do nothing; otherwise each still-false flag is set when its keyword regex
matches (each regex is a plain alternation of literals, i.e. substring
containment). -/
def updateCoverage (cov : Coverage) (text : String) : Coverage :=
  let normalized := stripWs text
  if normalized = "" then cov
  else
    { experience := cov.experience || hitsAny normalized experienceKeys,
      motivation := cov.motivation || hitsAny normalized motivationKeys,
      language := cov.language || hitsAny normalized languageKeys,
      shift := cov.shift || hitsAny normalized shiftKeys,
      stamina := cov.stamina || hitsAny normalized staminaKeys,
      visa := cov.visa || hitsAny normalized visaKeys }

/-- `coverageLabels` record of the source. -/
def coverageLabel : CoverageKey → String
  | .experience => "経験・業務"
  | .motivation => "動機・理由"
  | .language => "日本語力"
  | .shift => "シフト・夜勤"
  | .stamina => "体力・健康"
  | .visa => "在留/開始時期"

/-- `Object.entries(coverage)` in the insertion order of the source record. -/
def coverageEntries (cov : Coverage) : List (CoverageKey × Bool) :=
  [(.experience, cov.experience), (.motivation, cov.motivation),
   (.language, cov.language), (.shift, cov.shift),
   (.stamina, cov.stamina), (.visa, cov.visa)]

/-- `hasAllCoverage()`: every coverage value is true. -/
def hasAllCoverage (cov : Coverage) : Bool :=
  (coverageEntries cov).all (fun p => p.2)

/-- `listMissingCoverage()`: labels of the still-false topics, joined with ", ". -/
def listMissingCoverage (cov : Coverage) : String :=
  String.intercalate ", "
    (((coverageEntries cov).filter (fun p => !p.2)).map (fun p => coverageLabel p.1))

/-- Result of `pickNextSpeaker` when it is not `null`: a single role or "both". -/
inductive Route
  | key (k : AiKey)
  | both
deriving DecidableEq

/-- `candidateHints` list of the source. -/
def candidateHints : List String :=
  ["本人", "候補者", "求職者", "マリア", "彼女", "彼", "日本語", "経験", "介護",
   "資格", "前職", "働い", "できます", "できる"]

/-- `interviewerHints` list of the source. -/
def interviewerHints : List String :=
  ["御社", "施設", "採用", "条件", "勤務", "シフト", "夜勤", "面接官", "会社",
   "職場", "待遇", "給与", "入社", "雇用"]

/-- `pickNextSpeaker(utterance)`: whitespace-normalize, empty text routes to
`null`; both hint sets matching routes to "both", exactly one to that role,
neither to `null`. -/
def pickNextSpeaker (utterance : String) : Option Route :=
  let text := stripWs utterance
  if text = "" then none
  else
    let toCandidate := candidateHints.any (fun word => containsSub text word)
    let toInterviewer := interviewerHints.any (fun word => containsSub text word)
    if toCandidate && toInterviewer then some Route.both
    else if toCandidate then some (Route.key AiKey.ai_b)
    else if toInterviewer then some (Route.key AiKey.ai_a)
    else none

/-- Session end reasons (`"marker" | "max_turns"`). -/
inductive EndReason
  | marker
  | max_turns
deriving DecidableEq

/-- `endMarkers` list of the source. -/
def endMarkers : List String := ["【面接終了】", "【面接中止】"]

/-- `endMarkers.some((marker) => finalText.includes(marker))`. -/
def hasEndMarker (text : String) : Bool :=
  endMarkers.any (fun m => containsSub text m)

/-- An observable effect: a message to a provider socket or to the client. -/
inductive Output
  | responseCreate (target : AiKey)
  | injectContext (target : AiKey) (text : String)
  | sessionsReadyMsg
  | waitingForSessionsMsg
  | audioMsg (source : AiKey) (turnId : Nat) (data : String)
  | audioStartMsg (source : AiKey) (turnId : Nat)
  | audioDoneMsg (source : AiKey) (turnId : Nat)
  | transcriptDeltaMsg (source : AiKey) (turnId : Nat) (delta : String)
  | transcriptDoneMsg (source : AiKey) (turnId : Nat) (text : String)
  | userTranscriptMsg (text : String)
  | sessionEndedMsg (reason : EndReason)
  | appendAudioMsg (target : AiKey) (data : String)
  | commitAudioMsg (target : AiKey)
deriving DecidableEq

/-- The per-connection mutable state of the `wss.on("connection")` closure.
`socketOpen` models `aiSockets[key].readyState === WebSocket.OPEN`. -/
structure CoordState where
  pendingStart : Bool
  autoMode : Bool
  userSpeaking : Bool
  queuedNextKeys : List AiKey
  totalTurns : Nat
  sessionEnded : Bool
  sessionEndReason : Option EndReason
  sessionReady : RoleMap Bool
  transcriptBuffers : RoleMap String
  audioStarted : RoleMap Bool
  audioDone : RoleMap Bool
  transcriptDone : RoleMap Bool
  transcriptSent : RoleMap Bool
  playbackDone : RoleMap Bool
  currentTurn : RoleMap Nat
  transcriptDeltaQueue : RoleMap (List String)
  transcriptFinalText : RoleMap (Option String)
  lastUserTranscript : String
  lastUserTranscriptAt : Nat
  coverage : Coverage
  socketOpen : RoleMap Bool
deriving DecidableEq

/-- State right after connection: every flag false, counters zero. -/
def initState : CoordState :=
  { pendingStart := false, autoMode := false, userSpeaking := false,
    queuedNextKeys := [], totalTurns := 0, sessionEnded := false,
    sessionEndReason := none, sessionReady := ⟨false, false⟩,
    transcriptBuffers := ⟨"", ""⟩, audioStarted := ⟨false, false⟩,
    audioDone := ⟨false, false⟩, transcriptDone := ⟨false, false⟩,
    transcriptSent := ⟨false, false⟩, playbackDone := ⟨false, false⟩,
    currentTurn := ⟨0, 0⟩, transcriptDeltaQueue := ⟨[], []⟩,
    transcriptFinalText := ⟨none, none⟩, lastUserTranscript := "",
    lastUserTranscriptAt := 0, coverage := covInit,
    socketOpen := ⟨false, false⟩ }

/-- `endSession(reason)`: idempotent transition to the ended state; clears
the pending queue, leaves auto mode, reports `session_ended` once. -/
def endSession (s : CoordState) (reason : EndReason) : CoordState × List Output :=
  if s.sessionEnded then (s, [])
  else
    ({ s with sessionEnded := true, sessionEndReason := some reason,
              autoMode := false, queuedNextKeys := [] },
     [Output.sessionEndedMsg reason])

/-- `requestAiResponse(key, delayMs)`: no-op when the role's provider socket
is not open; otherwise bump the role's turn counter, reset every per-turn
flag and buffer, and send `response.create` to the provider. -/
def requestAiResponse (s : CoordState) (key : AiKey) : CoordState × List Output :=
  if !(s.socketOpen.get key) then (s, [])
  else
    ({ s with
        currentTurn := s.currentTurn.set key (s.currentTurn.get key + 1),
        audioStarted := s.audioStarted.set key false,
        audioDone := s.audioDone.set key false,
        transcriptDone := s.transcriptDone.set key false,
        transcriptSent := s.transcriptSent.set key false,
        playbackDone := s.playbackDone.set key false,
        transcriptDeltaQueue := s.transcriptDeltaQueue.set key [],
        transcriptFinalText := s.transcriptFinalText.set key none,
        transcriptBuffers := s.transcriptBuffers.set key "" },
     [Output.responseCreate key])

/-- `checkTurnCompletion(key)`: advance only when all three per-turn flags
hold, auto mode is on, the human is not speaking, and the session has not
ended; the next speaker is popped from the queue or defaults to the other
role. -/
def checkTurnCompletion (s : CoordState) (key : AiKey) : CoordState × List Output :=
  if !(s.audioDone.get key) || !(s.transcriptDone.get key) || !(s.playbackDone.get key) then
    (s, [])
  else if !s.autoMode || s.userSpeaking then (s, [])
  else if s.sessionEnded then (s, [])
  else
    match s.queuedNextKeys with
    | nextKey :: rest => requestAiResponse { s with queuedNextKeys := rest } nextKey
    | [] => requestAiResponse s (otherKey key)

/-- `transcript || transcriptBuffers[key]` (empty transcript falls back to
the accumulated delta buffer). -/
def finalTextOf (s : CoordState) (key : AiKey) (transcript : String) : String :=
  if transcript = "" then s.transcriptBuffers.get key else transcript

/-- The first statements of `onTranscriptDone`: record the final text, mark
the transcript done, count the turn, and (interviewer only) update coverage. -/
def tdRecord (s : CoordState) (key : AiKey) (finalText : String) : CoordState :=
  let s1 :=
    { s with transcriptBuffers := s.transcriptBuffers.set key "",
             transcriptFinalText := s.transcriptFinalText.set key (some finalText),
             transcriptDone := s.transcriptDone.set key true,
             totalTurns := s.totalTurns + 1 }
  if key = AiKey.ai_a then { s1 with coverage := updateCoverage s1.coverage finalText }
  else s1

/-- Text of the corrective nudge injected when a closing marker is ignored. -/
def correctiveText (missing : String) : String :=
  "Continue the interview. Missing topics: " ++ missing ++ ". Do NOT close yet."

/-- The end-of-session evaluation of `onTranscriptDone`: the marker branch
with its min-turns/coverage guard (and, on guard failure for the
interviewer, the corrective injection when its socket is open and at least
one topic is missing), else the max-turns check. -/
def tdEndCheck (s : CoordState) (key : AiKey) (finalText : String) : CoordState × List Output :=
  if hasEndMarker finalText then
    if MIN_TURNS ≤ s.totalTurns && hasAllCoverage s.coverage then
      endSession s EndReason.marker
    else if key = AiKey.ai_a then
      if s.socketOpen.get AiKey.ai_a && listMissingCoverage s.coverage != "" then
        (s, [Output.injectContext AiKey.ai_a (correctiveText (listMissingCoverage s.coverage))])
      else (s, [])
    else (s, [])
  else if MAX_TURNS ≤ s.totalTurns then endSession s EndReason.max_turns
  else (s, [])

/-- The `transcriptFinalText[key] && !transcriptSent[key]` forwarding block
(guarded by `audioDone[key]`, which both call sites have just established or
test explicitly): send `transcript_done` to the client once per turn. -/
def sendFinalIfReady (s : CoordState) (key : AiKey) : CoordState × List Output :=
  match s.transcriptFinalText.get key with
  | none => (s, [])
  | some t =>
    if s.audioDone.get key && t != "" && !(s.transcriptSent.get key) then
      ({ s with transcriptFinalText := s.transcriptFinalText.set key none,
                transcriptDeltaQueue := s.transcriptDeltaQueue.set key [],
                transcriptSent := s.transcriptSent.set key true },
       [Output.transcriptDoneMsg key (s.currentTurn.get key) t])
    else (s, [])

/-- `roleLabel`: the display name used for the cross-role context injection. -/
def roleLabel : AiKey → String
  | .ai_a => "Interviewer"
  | .ai_b => "Candidate"

/-- The closing block of `onTranscriptDone`: inject the finalized utterance
into the other role's conversation when it is non-blank and that socket is
open. -/
def crossInject (s : CoordState) (key : AiKey) (finalText : String) : List Output :=
  if jsTrim finalText != "" && s.socketOpen.get (otherKey key) then
    [Output.injectContext (otherKey key)
      ("[" ++ roleLabel key ++ " said]: " ++ finalText)]
  else []

/-- `onTranscriptDone` handler of a provider
`response.audio_transcript.done` event. -/
def onTranscriptDone (s : CoordState) (key : AiKey) (transcript : String) :
    CoordState × List Output :=
  let ft := finalTextOf s key transcript
  let s1 := tdRecord s key ft
  let p1 := tdEndCheck s1 key ft
  let p2 := sendFinalIfReady p1.1 key
  let p3 := checkTurnCompletion p2.1 key
  (p3.1, p1.2 ++ p2.2 ++ p3.2 ++ crossInject p3.1 key ft)

/-- `onAudioDone` handler of a provider `response.audio.done` event. -/
def onAudioDone (s : CoordState) (key : AiKey) : CoordState × List Output :=
  let o0 := [Output.audioDoneMsg key (s.currentTurn.get key)]
  let s1 := { s with audioDone := s.audioDone.set key true }
  let p1 := sendFinalIfReady s1 key
  let p2 := checkTurnCompletion p1.1 key
  (p2.1, o0 ++ p1.2 ++ p2.2)

/-- Drain one queued transcript delta (the `transcriptDeltaQueue[key].shift()`
block of the audio-delta handler); a shifted empty delta is dropped silently. -/
def drainDelta (s : CoordState) (key : AiKey) : CoordState × List Output :=
  match s.transcriptDeltaQueue.get key with
  | [] => (s, [])
  | d :: rest =>
    if d != "" then
      ({ s with transcriptDeltaQueue := s.transcriptDeltaQueue.set key rest },
       [Output.transcriptDeltaMsg key (s.currentTurn.get key) d])
    else
      ({ s with transcriptDeltaQueue := s.transcriptDeltaQueue.set key rest }, [])

/-- `onAudioDelta` handler: relay the chunk, announce `audio_start` once per
turn, and drain one queued transcript delta. -/
def onAudioDelta (s : CoordState) (key : AiKey) (data : String) :
    CoordState × List Output :=
  if !(s.audioStarted.get key) then
    ((drainDelta { s with audioStarted := s.audioStarted.set key true } key).1,
     Output.audioMsg key (s.currentTurn.get key) data ::
       Output.audioStartMsg key (s.currentTurn.get key) ::
       (drainDelta { s with audioStarted := s.audioStarted.set key true } key).2)
  else
    ((drainDelta s key).1,
     Output.audioMsg key (s.currentTurn.get key) data :: (drainDelta s key).2)

/-- `onTranscriptDelta` handler: append to the buffer; queue non-empty deltas. -/
def onTranscriptDelta (s : CoordState) (key : AiKey) (delta : String) :
    CoordState × List Output :=
  let s1 := { s with transcriptBuffers :=
                s.transcriptBuffers.set key (s.transcriptBuffers.get key ++ delta) }
  if delta != "" then
    ({ s1 with transcriptDeltaQueue :=
        s1.transcriptDeltaQueue.set key (s1.transcriptDeltaQueue.get key ++ [delta]) }, [])
  else (s1, [])

/-- `onInputTranscriptDone` handler (human speech transcript): only the
interviewer connection's copy is used; blank text and a 2-second duplicate
window are ignored. -/
def onInputTranscriptDone (s : CoordState) (key : AiKey) (now : Nat)
    (transcript : String) : CoordState × List Output :=
  if key ≠ AiKey.ai_a then (s, [])
  else
    let normalized := jsTrim transcript
    if normalized = "" then (s, [])
    else if normalized == s.lastUserTranscript && now - s.lastUserTranscriptAt < 2000 then
      (s, [])
    else
      ({ s with lastUserTranscript := normalized, lastUserTranscriptAt := now },
       [Output.userTranscriptMsg normalized])

/-- `onReady` handler of a provider `session.updated` event. -/
def onReady (s : CoordState) (key : AiKey) : CoordState × List Output :=
  let s1 := { s with sessionReady := s.sessionReady.set key true }
  if s1.pendingStart && s1.sessionReady.get AiKey.ai_a && s1.sessionReady.get AiKey.ai_b then
    let s2 := { s1 with pendingStart := false }
    if s2.autoMode then
      let p := requestAiResponse s2 AiKey.ai_a
      (p.1, Output.sessionsReadyMsg :: p.2)
    else (s2, [Output.sessionsReadyMsg])
  else (s1, [])

/-- Client `start` message: enter auto mode, reset the session policy and
coverage, and either kick off the interviewer or wait for readiness. -/
def onStart (s : CoordState) : CoordState × List Output :=
  let s1 := { s with autoMode := true, sessionEnded := false,
                     sessionEndReason := none, totalTurns := 0,
                     queuedNextKeys := [], coverage := covInit }
  if s1.sessionReady.get AiKey.ai_a && s1.sessionReady.get AiKey.ai_b then
    let p := requestAiResponse s1 AiKey.ai_a
    (p.1, Output.sessionsReadyMsg :: p.2)
  else ({ s1 with pendingStart := true }, [Output.waitingForSessionsMsg])

/-- Client `user_done` message: the human stopped speaking; in auto mode
route via the last fresh user transcript (default: interviewer), queue the
rest, and request the first role. -/
def onUserDone (s0 : CoordState) (now : Nat) : CoordState × List Output :=
  let s := { s0 with userSpeaking := false }
  if s.autoMode && !s.sessionEnded then
    let nextKeys : List AiKey :=
      if s.lastUserTranscript != "" && now - s.lastUserTranscriptAt < 5000 then
        match pickNextSpeaker s.lastUserTranscript with
        | some (Route.key k) => [k]
        | some Route.both => [AiKey.ai_a, AiKey.ai_b]
        | none => [AiKey.ai_a]
      else [AiKey.ai_a]
    match nextKeys with
    | first :: rest => requestAiResponse { s with queuedNextKeys := rest } first
    | [] => requestAiResponse { s with queuedNextKeys := [] } AiKey.ai_a
  else (s, [])

/-- The accepted branch of the `audio_playback_done` handler. -/
def acceptPlayback (s : CoordState) (target : AiKey) : CoordState × List Output :=
  checkTurnCompletion { s with playbackDone := s.playbackDone.set target true } target

/-- Client `audio_playback_done{target, turnId}` message: a `turnId` present
and different from the role's current turn is discarded; otherwise the
playback flag is set and completion is checked. -/
def onPlaybackDone (s : CoordState) (target : AiKey) (turnId : Option Nat) :
    CoordState × List Output :=
  match turnId with
  | some tid => if tid ≠ s.currentTurn.get target then (s, []) else acceptPlayback s target
  | none => acceptPlayback s target

/-- Client `user_audio{data}` message: fan the audio out to both open
provider sockets (object iteration order: `ai_a` then `ai_b`). -/
def onUserAudio (s : CoordState) (data : String) : CoordState × List Output :=
  (s, (if s.socketOpen.get AiKey.ai_a then [Output.appendAudioMsg AiKey.ai_a data] else []) ++
      (if s.socketOpen.get AiKey.ai_b then [Output.appendAudioMsg AiKey.ai_b data] else []))

/-- Client `user_audio_commit` message: commit on both open provider sockets. -/
def onUserAudioCommit (s : CoordState) : CoordState × List Output :=
  (s, (if s.socketOpen.get AiKey.ai_a then [Output.commitAudioMsg AiKey.ai_a] else []) ++
      (if s.socketOpen.get AiKey.ai_b then [Output.commitAudioMsg AiKey.ai_b] else []))

/-- Every event the coordinator processes: normalized provider events of the
two AI connections and parsed client messages. Events carrying a clock read
`Date.now()` take it as an explicit `now` argument. -/
inductive InEvent
  | providerReady (key : AiKey)
  | providerAudioDelta (key : AiKey) (data : String)
  | providerAudioDone (key : AiKey)
  | providerTranscriptDelta (key : AiKey) (delta : String)
  | providerTranscriptDone (key : AiKey) (transcript : String)
  | providerInputTranscriptDone (key : AiKey) (now : Nat) (transcript : String)
  | clientStart
  | clientRequestAi (target : AiKey)
  | clientUserAudio (data : String)
  | clientUserAudioCommit
  | clientUserSpeaking
  | clientUserDone (now : Nat)
  | clientPlaybackDone (target : AiKey) (turnId : Option Nat)
deriving DecidableEq

/-- One step of the serialized per-connection event loop. -/
def step (s : CoordState) : InEvent → CoordState × List Output
  | .providerReady key => onReady s key
  | .providerAudioDelta key data => onAudioDelta s key data
  | .providerAudioDone key => onAudioDone s key
  | .providerTranscriptDelta key delta => onTranscriptDelta s key delta
  | .providerTranscriptDone key transcript => onTranscriptDone s key transcript
  | .providerInputTranscriptDone key now transcript => onInputTranscriptDone s key now transcript
  | .clientStart => onStart s
  | .clientRequestAi target => requestAiResponse s target
  | .clientUserAudio data => onUserAudio s data
  | .clientUserAudioCommit => onUserAudioCommit s
  | .clientUserSpeaking => ({ s with userSpeaking := true }, [])
  | .clientUserDone now => onUserDone s now
  | .clientPlaybackDone target turnId => onPlaybackDone s target turnId

/-- The generation requests (`response.create` sends) among the outputs. -/
def requestsOf (outs : List Output) : List AiKey :=
  outs.filterMap (fun o =>
    match o with
    | Output.responseCreate k => some k
    | _ => none)

/-- The texts injected (`conversation.item.create`) into `target`'s
conversation among the outputs. -/
def injectionsTo (target : AiKey) (outs : List Output) : List String :=
  outs.filterMap (fun o =>
    match o with
    | Output.injectContext t txt => if t = target then some txt else none
    | _ => none)

/-- Events exempt from the claim that an ended session issues no further
generation requests: `start` (an explicit restart) and the manual
`request_ai` override. -/
def isRestartOrOverride : InEvent → Bool
  | .clientStart => true
  | .clientRequestAi _ => true
  | _ => false

end Interview

namespace Interview

/-- Relation used for the turn-counter invariant: processing one event moves
each role counter up by exactly the number of generation requests issued for
that role, and at most one request per role is issued per event. -/
def TurnCount (s : CoordState) (p : CoordState × List Output) : Prop :=
  ∀ k, p.1.currentTurn.get k = s.currentTurn.get k + (requestsOf p.2).count k ∧
       (requestsOf p.2).count k ≤ 1

/-- Running state with both provider sockets open and auto mode on. -/
def stateOpen : CoordState :=
  { initState with socketOpen := ⟨true, true⟩, autoMode := true }

/-- All six coverage flags true. -/
def covAll : Coverage :=
  { experience := true, motivation := true, language := true,
    shift := true, stamina := true, visa := true }

/-- A running state in the middle of an interviewer turn: turn 1 was
requested, none of its three completion flags hold yet, and the human has
been speaking. -/
def stateMidTurn : CoordState :=
  { stateOpen with userSpeaking := true, currentTurn := ⟨1, 0⟩ }

/-- Running state with full coverage but only 5 finalized turns. -/
def stateGuardMin : CoordState :=
  { stateOpen with coverage := covAll, totalTurns := 5 }

/-- Running state with 5 finalized turns and every topic except shift covered. -/
def stateMissingShift : CoordState :=
  { stateOpen with coverage := { covAll with shift := false }, totalTurns := 5 }

/-- Running state whose last fresh human utterance matches both hint sets. -/
def stateBothHints : CoordState :=
  { stateOpen with lastUserTranscript := "経験シフト", lastUserTranscriptAt := 1000 }

/-- Running state with 39 finalized turns (the next one reaches `MAX_TURNS`). -/
def stateNearMax : CoordState :=
  { stateOpen with totalTurns := 39 }

/-- Running state with 25 finalized turns and full coverage. -/
def stateCovDone : CoordState :=
  { stateOpen with totalTurns := 25, coverage := covAll }

/-- Running state with 19 finalized turns and full coverage. -/
def stateCovDone19 : CoordState :=
  { stateOpen with totalTurns := 19, coverage := covAll }

/-- State right after the session ended with reason `marker`. -/
def stateEnded : CoordState :=
  { stateOpen with sessionEnded := true, autoMode := false,
                   sessionEndReason := some EndReason.marker }

end Interview

namespace Interview

/-! Helper lemmas about the embedding. -/

theorem RoleMap.get_set {α : Type} (m : RoleMap α) (k : AiKey) (v : α) (k' : AiKey) :
    (m.set k v).get k' = if k' = k then v else m.get k' := by
  cases k <;> cases k' <;> simp [RoleMap.get, RoleMap.set]

theorem RoleMap.get_set_self {α : Type} (m : RoleMap α) (k : AiKey) (v : α) :
    (m.set k v).get k = v := by
  cases k <;> rfl

theorem requestsOf_nil : requestsOf [] = [] := rfl

theorem requestsOf_append (l1 l2 : List Output) :
    requestsOf (l1 ++ l2) = requestsOf l1 ++ requestsOf l2 := by
  simp [requestsOf]

theorem injectionsTo_append (r : AiKey) (l1 l2 : List Output) :
    injectionsTo r (l1 ++ l2) = injectionsTo r l1 ++ injectionsTo r l2 := by
  simp [injectionsTo]

theorem reqClosed (s : CoordState) (k : AiKey) (h : s.socketOpen.get k = false) :
    requestAiResponse s k = (s, []) := by
  simp [requestAiResponse, h]

theorem req_ended (s : CoordState) (k : AiKey) :
    (requestAiResponse s k).1.sessionEnded = s.sessionEnded := by
  unfold requestAiResponse; split <;> rfl

theorem req_reason (s : CoordState) (k : AiKey) :
    (requestAiResponse s k).1.sessionEndReason = s.sessionEndReason := by
  unfold requestAiResponse; split <;> rfl

theorem req_queue (s : CoordState) (k : AiKey) :
    (requestAiResponse s k).1.queuedNextKeys = s.queuedNextKeys := by
  unfold requestAiResponse; split <;> rfl

theorem req_coverage (s : CoordState) (k : AiKey) :
    (requestAiResponse s k).1.coverage = s.coverage := by
  unfold requestAiResponse; split <;> rfl

theorem req_outs (s : CoordState) (k : AiKey) :
    (requestAiResponse s k).2 = [] ∨ (requestAiResponse s k).2 = [Output.responseCreate k] := by
  unfold requestAiResponse; split
  · exact Or.inl rfl
  · exact Or.inr rfl

theorem req_injections (r : AiKey) (s : CoordState) (k : AiKey) :
    injectionsTo r (requestAiResponse s k).2 = [] := by
  rcases req_outs s k with h | h <;> rw [h] <;> rfl

theorem ctc_ended (s : CoordState) (k : AiKey) (h : s.sessionEnded = true) :
    checkTurnCompletion s k = (s, []) := by
  unfold checkTurnCompletion
  rw [h]
  simp

theorem ctc_noauto (s : CoordState) (k : AiKey) (h : s.autoMode = false) :
    checkTurnCompletion s k = (s, []) := by
  unfold checkTurnCompletion
  rw [h]
  simp

theorem ctc_flag (s : CoordState) (k : AiKey)
    (h : s.audioDone.get k = false ∨ s.transcriptDone.get k = false ∨
         s.playbackDone.get k = false) :
    checkTurnCompletion s k = (s, []) := by
  unfold checkTurnCompletion
  rcases h with h | h | h <;> rw [h] <;> simp

theorem ctc_ended_pres (s : CoordState) (k : AiKey) :
    (checkTurnCompletion s k).1.sessionEnded = s.sessionEnded := by
  unfold checkTurnCompletion
  split
  · rfl
  · split
    · rfl
    · split
      · rfl
      · split
        · exact req_ended _ _
        · exact req_ended _ _

theorem ctc_reason_pres (s : CoordState) (k : AiKey) :
    (checkTurnCompletion s k).1.sessionEndReason = s.sessionEndReason := by
  unfold checkTurnCompletion
  split
  · rfl
  · split
    · rfl
    · split
      · rfl
      · split
        · exact req_reason _ _
        · exact req_reason _ _

theorem ctc_coverage_pres (s : CoordState) (k : AiKey) :
    (checkTurnCompletion s k).1.coverage = s.coverage := by
  unfold checkTurnCompletion
  split
  · rfl
  · split
    · rfl
    · split
      · rfl
      · split
        · exact req_coverage _ _
        · exact req_coverage _ _

theorem ctc_injections (r : AiKey) (s : CoordState) (k : AiKey) :
    injectionsTo r (checkTurnCompletion s k).2 = [] := by
  unfold checkTurnCompletion
  split
  · rfl
  · split
    · rfl
    · split
      · rfl
      · split
        · exact req_injections _ _ _
        · exact req_injections _ _ _

end Interview


namespace Interview

theorem tdRecord_ended (s : CoordState) (k : AiKey) (ft : String) :
    (tdRecord s k ft).sessionEnded = s.sessionEnded := by
  unfold tdRecord; split <;> rfl

theorem tdRecord_reason (s : CoordState) (k : AiKey) (ft : String) :
    (tdRecord s k ft).sessionEndReason = s.sessionEndReason := by
  unfold tdRecord; split <;> rfl

theorem tdRecord_auto (s : CoordState) (k : AiKey) (ft : String) :
    (tdRecord s k ft).autoMode = s.autoMode := by
  unfold tdRecord; split <;> rfl

theorem tdRecord_queue (s : CoordState) (k : AiKey) (ft : String) :
    (tdRecord s k ft).queuedNextKeys = s.queuedNextKeys := by
  unfold tdRecord; split <;> rfl

theorem tdRecord_turns (s : CoordState) (k : AiKey) (ft : String) :
    (tdRecord s k ft).totalTurns = s.totalTurns + 1 := by
  unfold tdRecord; split <;> rfl

theorem tdRecord_audio (s : CoordState) (k : AiKey) (ft : String) :
    (tdRecord s k ft).audioDone = s.audioDone := by
  unfold tdRecord; split <;> rfl

theorem tdRecord_playback (s : CoordState) (k : AiKey) (ft : String) :
    (tdRecord s k ft).playbackDone = s.playbackDone := by
  unfold tdRecord; split <;> rfl

theorem tdRecord_turn (s : CoordState) (k : AiKey) (ft : String) :
    (tdRecord s k ft).currentTurn = s.currentTurn := by
  unfold tdRecord; split <;> rfl

theorem tdRecord_sockets (s : CoordState) (k : AiKey) (ft : String) :
    (tdRecord s k ft).socketOpen = s.socketOpen := by
  unfold tdRecord; split <;> rfl

theorem tdRecord_coverage_a (s : CoordState) (ft : String) :
    (tdRecord s AiKey.ai_a ft).coverage = updateCoverage s.coverage ft := by
  unfold tdRecord; simp

theorem tdRecord_coverage_b (s : CoordState) (ft : String) :
    (tdRecord s AiKey.ai_b ft).coverage = s.coverage := by
  unfold tdRecord; simp

theorem tdEndCheck_requests (s : CoordState) (k : AiKey) (ft : String) :
    requestsOf (tdEndCheck s k ft).2 = [] := by
  unfold tdEndCheck endSession
  repeat' split
  all_goals rfl

theorem tdEndCheck_audio (s : CoordState) (k : AiKey) (ft : String) :
    (tdEndCheck s k ft).1.audioDone = s.audioDone := by
  unfold tdEndCheck endSession
  repeat' split
  all_goals rfl

theorem tdEndCheck_playback (s : CoordState) (k : AiKey) (ft : String) :
    (tdEndCheck s k ft).1.playbackDone = s.playbackDone := by
  unfold tdEndCheck endSession
  repeat' split
  all_goals rfl

theorem tdEndCheck_transcriptDone (s : CoordState) (k : AiKey) (ft : String) :
    (tdEndCheck s k ft).1.transcriptDone = s.transcriptDone := by
  unfold tdEndCheck endSession
  repeat' split
  all_goals rfl

theorem tdEndCheck_turn (s : CoordState) (k : AiKey) (ft : String) :
    (tdEndCheck s k ft).1.currentTurn = s.currentTurn := by
  unfold tdEndCheck endSession
  repeat' split
  all_goals rfl

theorem tdEndCheck_coverage (s : CoordState) (k : AiKey) (ft : String) :
    (tdEndCheck s k ft).1.coverage = s.coverage := by
  unfold tdEndCheck endSession
  repeat' split
  all_goals rfl

theorem tdEndCheck_sockets (s : CoordState) (k : AiKey) (ft : String) :
    (tdEndCheck s k ft).1.socketOpen = s.socketOpen := by
  unfold tdEndCheck endSession
  repeat' split
  all_goals rfl

theorem tdEndCheck_auto_false (s : CoordState) (k : AiKey) (ft : String)
    (h : s.autoMode = false) : (tdEndCheck s k ft).1.autoMode = false := by
  unfold tdEndCheck endSession
  repeat' split
  all_goals first | rfl | exact h

theorem tdEndCheck_ended_of_ended (s : CoordState) (k : AiKey) (ft : String)
    (h : s.sessionEnded = true) : (tdEndCheck s k ft).1 = s := by
  unfold tdEndCheck endSession
  rw [h]
  repeat' split
  all_goals first | rfl | simp_all

theorem sfr_ended (s : CoordState) (k : AiKey) :
    (sendFinalIfReady s k).1.sessionEnded = s.sessionEnded := by
  unfold sendFinalIfReady
  split
  · rfl
  · split <;> rfl

theorem sfr_reason (s : CoordState) (k : AiKey) :
    (sendFinalIfReady s k).1.sessionEndReason = s.sessionEndReason := by
  unfold sendFinalIfReady
  split
  · rfl
  · split <;> rfl

theorem sfr_auto (s : CoordState) (k : AiKey) :
    (sendFinalIfReady s k).1.autoMode = s.autoMode := by
  unfold sendFinalIfReady
  split
  · rfl
  · split <;> rfl

theorem sfr_queue (s : CoordState) (k : AiKey) :
    (sendFinalIfReady s k).1.queuedNextKeys = s.queuedNextKeys := by
  unfold sendFinalIfReady
  split
  · rfl
  · split <;> rfl

theorem sfr_audio (s : CoordState) (k : AiKey) :
    (sendFinalIfReady s k).1.audioDone = s.audioDone := by
  unfold sendFinalIfReady
  split
  · rfl
  · split <;> rfl

theorem sfr_transcriptDone (s : CoordState) (k : AiKey) :
    (sendFinalIfReady s k).1.transcriptDone = s.transcriptDone := by
  unfold sendFinalIfReady
  split
  · rfl
  · split <;> rfl

theorem sfr_playback (s : CoordState) (k : AiKey) :
    (sendFinalIfReady s k).1.playbackDone = s.playbackDone := by
  unfold sendFinalIfReady
  split
  · rfl
  · split <;> rfl

theorem sfr_turn (s : CoordState) (k : AiKey) :
    (sendFinalIfReady s k).1.currentTurn = s.currentTurn := by
  unfold sendFinalIfReady
  split
  · rfl
  · split <;> rfl

theorem sfr_coverage (s : CoordState) (k : AiKey) :
    (sendFinalIfReady s k).1.coverage = s.coverage := by
  unfold sendFinalIfReady
  split
  · rfl
  · split <;> rfl

theorem sfr_sockets (s : CoordState) (k : AiKey) :
    (sendFinalIfReady s k).1.socketOpen = s.socketOpen := by
  unfold sendFinalIfReady
  split
  · rfl
  · split <;> rfl

theorem sfr_requests (s : CoordState) (k : AiKey) :
    requestsOf (sendFinalIfReady s k).2 = [] := by
  unfold sendFinalIfReady
  split
  · rfl
  · split <;> rfl

theorem sfr_injections (r : AiKey) (s : CoordState) (k : AiKey) :
    injectionsTo r (sendFinalIfReady s k).2 = [] := by
  unfold sendFinalIfReady
  split
  · rfl
  · split <;> rfl

theorem crossInject_requests (s : CoordState) (k : AiKey) (ft : String) :
    requestsOf (crossInject s k ft) = [] := by
  unfold crossInject; split <;> rfl

theorem crossInject_self (s : CoordState) (k : AiKey) (ft : String) :
    injectionsTo k (crossInject s k ft) = [] := by
  unfold crossInject
  split
  · cases k <;> rfl
  · rfl

end Interview

namespace Interview

theorem requestsOf_cons (o : Output) (l : List Output) :
    requestsOf (o :: l) = requestsOf [o] ++ requestsOf l := by
  rw [show o :: l = [o] ++ l from rfl, requestsOf_append]

theorem turnCount_pure (s : CoordState) (p : CoordState × List Output)
    (h1 : p.1.currentTurn = s.currentTurn) (h2 : requestsOf p.2 = []) :
    TurnCount s p := by
  intro k
  rw [h1, h2]
  simp

theorem turnCount_req (s s' : CoordState) (key : AiKey)
    (h : s'.currentTurn = s.currentTurn) :
    TurnCount s (requestAiResponse s' key) := by
  intro k
  unfold requestAiResponse
  split
  · simp [h, requestsOf]
  · cases key <;> cases k <;>
      simp [RoleMap.get, RoleMap.set, requestsOf, h, List.count_cons, List.count_nil]

theorem turnCount_ctc (s s' : CoordState) (key : AiKey)
    (h : s'.currentTurn = s.currentTurn) :
    TurnCount s (checkTurnCompletion s' key) := by
  unfold checkTurnCompletion
  split
  · exact turnCount_pure s _ h rfl
  · split
    · exact turnCount_pure s _ h rfl
    · split
      · exact turnCount_pure s _ h rfl
      · split
        · exact turnCount_req s _ _ h
        · exact turnCount_req s _ _ h

theorem turnCount_cons (s : CoordState) (p : CoordState × List Output) (o : Output)
    (h : TurnCount s p) (ho : requestsOf [o] = []) :
    TurnCount s (p.1, o :: p.2) := by
  intro k
  have hk := h k
  have hco : requestsOf (o :: p.2) = requestsOf p.2 := by
    rw [requestsOf_cons, ho]; rfl
  simpa [hco] using hk

theorem turnCount_pre (s : CoordState) (p : CoordState × List Output) (pre : List Output)
    (h : TurnCount s p) (hpre : requestsOf pre = []) :
    TurnCount s (p.1, pre ++ p.2) := by
  intro k
  have hk := h k
  simpa [requestsOf_append, hpre] using hk

theorem turnCount_post (s : CoordState) (p : CoordState × List Output) (post : List Output)
    (h : TurnCount s p) (hpost : requestsOf post = []) :
    TurnCount s (p.1, p.2 ++ post) := by
  intro k
  have hk := h k
  simpa [requestsOf_append, hpost] using hk

theorem drainDelta_turn (s : CoordState) (key : AiKey) :
    (drainDelta s key).1.currentTurn = s.currentTurn := by
  unfold drainDelta
  split
  · rfl
  · split <;> rfl

theorem drainDelta_requests (s : CoordState) (key : AiKey) :
    requestsOf (drainDelta s key).2 = [] := by
  unfold drainDelta
  split
  · rfl
  · split <;> rfl

theorem turnCount_onAudioDelta (s : CoordState) (key : AiKey) (data : String) :
    TurnCount s (onAudioDelta s key data) := by
  unfold onAudioDelta
  split
  · exact turnCount_cons s _ (Output.audioMsg key (s.currentTurn.get key) data)
      (turnCount_cons s _ (Output.audioStartMsg key (s.currentTurn.get key))
        (turnCount_pure s _ (drainDelta_turn _ _) (drainDelta_requests _ _)) rfl) rfl
  · exact turnCount_cons s _ (Output.audioMsg key (s.currentTurn.get key) data)
      (turnCount_pure s _ (drainDelta_turn _ _) (drainDelta_requests _ _)) rfl

theorem turnCount_onAudioDone (s : CoordState) (key : AiKey) :
    TurnCount s (onAudioDone s key) := by
  have h2 : TurnCount s (checkTurnCompletion
      (sendFinalIfReady { s with audioDone := s.audioDone.set key true } key).1 key) :=
    turnCount_ctc s _ key (sfr_turn _ key)
  have hpre : requestsOf ([Output.audioDoneMsg key (s.currentTurn.get key)] ++
      (sendFinalIfReady { s with audioDone := s.audioDone.set key true } key).2) = [] := by
    rw [requestsOf_append, sfr_requests]; rfl
  exact turnCount_pre s _ _ h2 hpre

theorem turnCount_onTranscriptDone (s : CoordState) (key : AiKey) (t : String) :
    TurnCount s (onTranscriptDone s key t) := by
  have h3 : TurnCount s (checkTurnCompletion
      (sendFinalIfReady (tdEndCheck (tdRecord s key (finalTextOf s key t)) key
        (finalTextOf s key t)).1 key).1 key) := by
    apply turnCount_ctc
    rw [sfr_turn, tdEndCheck_turn, tdRecord_turn]
  intro k
  have hk := h3 k
  unfold onTranscriptDone
  rw [requestsOf_append, requestsOf_append, requestsOf_append, tdEndCheck_requests,
    sfr_requests, crossInject_requests]
  simpa using hk

theorem turnCount_onReady (s : CoordState) (key : AiKey) :
    TurnCount s (onReady s key) := by
  unfold onReady
  dsimp only
  split
  · split
    · exact turnCount_cons s _ _ (turnCount_req s _ _ rfl) rfl
    · exact turnCount_pure s _ rfl rfl
  · exact turnCount_pure s _ rfl rfl

theorem turnCount_onStart (s : CoordState) : TurnCount s (onStart s) := by
  unfold onStart
  dsimp only
  split
  · exact turnCount_cons s _ _ (turnCount_req s _ _ rfl) rfl
  · exact turnCount_pure s _ rfl rfl

theorem turnCount_onUserDone (s : CoordState) (now : Nat) :
    TurnCount s (onUserDone s now) := by
  unfold onUserDone
  dsimp only
  split
  · split
    · exact turnCount_req s _ _ rfl
    · exact turnCount_req s _ _ rfl
  · exact turnCount_pure s _ rfl rfl

theorem turnCount_onPlaybackDone (s : CoordState) (target : AiKey) (tid : Option Nat) :
    TurnCount s (onPlaybackDone s target tid) := by
  unfold onPlaybackDone acceptPlayback
  split
  · split
    · exact turnCount_pure s _ rfl rfl
    · exact turnCount_ctc s _ _ rfl
  · exact turnCount_ctc s _ _ rfl

theorem onUserAudio_requests (s : CoordState) (data : String) :
    requestsOf (onUserAudio s data).2 = [] := by
  unfold onUserAudio
  rw [requestsOf_append]
  split <;> split <;> rfl

theorem onUserAudioCommit_requests (s : CoordState) :
    requestsOf (onUserAudioCommit s).2 = [] := by
  unfold onUserAudioCommit
  rw [requestsOf_append]
  split <;> split <;> rfl

theorem turnCount_onTranscriptDelta (s : CoordState) (key : AiKey) (delta : String) :
    TurnCount s (onTranscriptDelta s key delta) := by
  unfold onTranscriptDelta
  split
  · exact turnCount_pure s _ rfl rfl
  · exact turnCount_pure s _ rfl rfl

theorem turnCount_onInputTranscriptDone (s : CoordState) (key : AiKey) (now : Nat)
    (t : String) : TurnCount s (onInputTranscriptDone s key now t) := by
  unfold onInputTranscriptDone
  dsimp only
  split
  · exact turnCount_pure s _ rfl rfl
  · split
    · exact turnCount_pure s _ rfl rfl
    · split
      · exact turnCount_pure s _ rfl rfl
      · exact turnCount_pure s _ rfl rfl

theorem turnCount_step (s : CoordState) (e : InEvent) : TurnCount s (step s e) := by
  cases e with
  | providerReady key => exact turnCount_onReady s key
  | providerAudioDelta key data => exact turnCount_onAudioDelta s key data
  | providerAudioDone key => exact turnCount_onAudioDone s key
  | providerTranscriptDelta key delta => exact turnCount_onTranscriptDelta s key delta
  | providerTranscriptDone key t => exact turnCount_onTranscriptDone s key t
  | providerInputTranscriptDone key now t => exact turnCount_onInputTranscriptDone s key now t
  | clientStart => exact turnCount_onStart s
  | clientRequestAi target => exact turnCount_req s s target rfl
  | clientUserAudio data => exact turnCount_pure s _ rfl (onUserAudio_requests s data)
  | clientUserAudioCommit => exact turnCount_pure s _ rfl (onUserAudioCommit_requests s)
  | clientUserSpeaking => exact turnCount_pure s _ rfl rfl
  | clientUserDone now => exact turnCount_onUserDone s now
  | clientPlaybackDone target tid => exact turnCount_onPlaybackDone s target tid

end Interview

namespace Interview

theorem filter_self_idem {α : Type} (p : α → Bool) (l : List α) :
    (l.filter p).filter p = l.filter p := by
  induction l with
  | nil => rfl
  | cons a l ih => by_cases h : p a <;> simp [List.filter_cons, h, ih]

theorem stripWs_idem (t : String) : stripWs (stripWs t) = stripWs t := by
  unfold stripWs
  exact congrArg String.mk (filter_self_idem _ _)

theorem hasAll_update (cov : Coverage) (t : String)
    (hc : hasAllCoverage cov = true) :
    hasAllCoverage (updateCoverage cov t) = true := by
  unfold updateCoverage
  dsimp only
  split
  · exact hc
  · unfold hasAllCoverage coverageEntries at *
    simp_all

theorem stepCoverage_a (s : CoordState) (t : String) :
    (step s (InEvent.providerTranscriptDone AiKey.ai_a t)).1.coverage
      = updateCoverage s.coverage (finalTextOf s AiKey.ai_a t) := by
  show (checkTurnCompletion (sendFinalIfReady
      (tdEndCheck (tdRecord s AiKey.ai_a (finalTextOf s AiKey.ai_a t)) AiKey.ai_a
        (finalTextOf s AiKey.ai_a t)).1 AiKey.ai_a).1 AiKey.ai_a).1.coverage = _
  rw [ctc_coverage_pres, sfr_coverage, tdEndCheck_coverage, tdRecord_coverage_a]

theorem stepCoverage_b (s : CoordState) (t : String) :
    (step s (InEvent.providerTranscriptDone AiKey.ai_b t)).1.coverage = s.coverage := by
  show (checkTurnCompletion (sendFinalIfReady
      (tdEndCheck (tdRecord s AiKey.ai_b (finalTextOf s AiKey.ai_b t)) AiKey.ai_b
        (finalTextOf s AiKey.ai_b t)).1 AiKey.ai_b).1 AiKey.ai_b).1.coverage = _
  rw [ctc_coverage_pres, sfr_coverage, tdEndCheck_coverage, tdRecord_coverage_b]

theorem ctc_queue_nil (s : CoordState) (k : AiKey)
    (hq : s.queuedNextKeys = []) :
    (checkTurnCompletion s k).1.queuedNextKeys = [] := by
  unfold checkTurnCompletion
  rw [hq]
  split
  · exact hq
  · split
    · exact hq
    · split
      · exact hq
      · rw [req_queue]
        exact hq

theorem tdEndCheck_ends (s : CoordState) (k : AiKey) (ft : String) :
    ((tdEndCheck s k ft).1.sessionEnded = s.sessionEnded ∧
     (tdEndCheck s k ft).1.queuedNextKeys = s.queuedNextKeys) ∨
    (tdEndCheck s k ft).1.queuedNextKeys = [] := by
  unfold tdEndCheck endSession
  repeat' split
  all_goals first | exact Or.inl ⟨rfl, rfl⟩ | exact Or.inr rfl

theorem onAudioDelta_requests (s : CoordState) (key : AiKey) (data : String) :
    requestsOf (onAudioDelta s key data).2 = [] := by
  unfold onAudioDelta
  split
  · show requestsOf
      (drainDelta { s with audioStarted := s.audioStarted.set key true } key).2 = []
    exact drainDelta_requests _ _
  · show requestsOf (drainDelta s key).2 = []
    exact drainDelta_requests _ _

theorem onTranscriptDelta_requests (s : CoordState) (key : AiKey) (delta : String) :
    requestsOf (onTranscriptDelta s key delta).2 = [] := by
  unfold onTranscriptDelta
  dsimp only
  split <;> rfl

theorem onInputTranscriptDone_requests (s : CoordState) (key : AiKey) (now : Nat)
    (t : String) : requestsOf (onInputTranscriptDone s key now t).2 = [] := by
  unfold onInputTranscriptDone
  dsimp only
  split
  · rfl
  · split
    · rfl
    · split <;> rfl

end Interview

namespace Interview

/-- C2: an inbound `audio_playback_done` whose `turnId` is present and does
not match the target role's current `turnId` is discarded without side
effects: the coordinator state is returned unchanged and no message is
emitted (in particular the role's playback flag is not set and no turn
completion is triggered). -/
theorem c2_stale_playback_ack (s : CoordState) (target : AiKey) (tid : Nat)
    (h : tid ≠ s.currentTurn.get target) :
    step s (InEvent.clientPlaybackDone target (some tid)) = (s, []) := by
  show onPlaybackDone s target (some tid) = (s, [])
  unfold onPlaybackDone
  dsimp only
  rw [if_pos h]

/-- Witness for C2 at a concrete stale acknowledgment (turn 5 acknowledged
while the current turn is 0). -/
theorem c2_stale_playback_ack_witness :
    (5 ≠ stateOpen.currentTurn.get AiKey.ai_a) ∧
    step stateOpen (InEvent.clientPlaybackDone AiKey.ai_a (some 5)) = (stateOpen, []) :=
  ⟨by decide, c2_stale_playback_ack stateOpen AiKey.ai_a 5 (by decide)⟩

/-- C10: a generation request for a role whose provider connection is not
open is a complete no-op: the state (turn counter, per-turn flags, buffers)
is returned unchanged and nothing is sent. -/
theorem c10_closed_socket_noop (s : CoordState) (key : AiKey)
    (h : s.socketOpen.get key = false) :
    requestAiResponse s key = (s, []) := by
  simp [requestAiResponse, h]

/-- Witness for C10 at the initial state, whose provider sockets are not yet
open. -/
theorem c10_closed_socket_noop_witness :
    initState.socketOpen.get AiKey.ai_a = false ∧
    requestAiResponse initState AiKey.ai_a = (initState, []) :=
  ⟨rfl, c10_closed_socket_noop initState AiKey.ai_a rfl⟩

/-- C8: per-role turn identifiers start at 0 and are strictly increasing,
never reused and never decremented: every processed event leaves each role's
counter equal to its old value plus the number of generation requests issued
for that role by that event, and at most one request per role is issued per
event. -/
theorem c8_turn_counter :
    (∀ k, initState.currentTurn.get k = 0) ∧
    ∀ (s : CoordState) (e : InEvent) (k : AiKey),
      (step s e).1.currentTurn.get k
          = s.currentTurn.get k + (requestsOf (step s e).2).count k ∧
      (requestsOf (step s e).2).count k ≤ 1 := by
  constructor
  · intro k
    cases k <;> rfl
  · intro s e k
    exact turnCount_step s e k

/-- C5: a finalized transcript that contains no closing marker and brings
`totalTurns` to at least `MAX_TURNS` ends the session with reason
`max_turns`, with no condition on coverage. -/
theorem c5_max_turns (s : CoordState) (key : AiKey) (t : String)
    (hm : hasEndMarker (finalTextOf s key t) = false)
    (hn : MAX_TURNS ≤ s.totalTurns + 1)
    (he : s.sessionEnded = false) :
    (step s (InEvent.providerTranscriptDone key t)).1.sessionEnded = true ∧
    (step s (InEvent.providerTranscriptDone key t)).1.sessionEndReason
      = some EndReason.max_turns := by
  have hE : (tdEndCheck (tdRecord s key (finalTextOf s key t)) key
        (finalTextOf s key t)).1.sessionEnded = true ∧
      (tdEndCheck (tdRecord s key (finalTextOf s key t)) key
        (finalTextOf s key t)).1.sessionEndReason = some EndReason.max_turns := by
    unfold tdEndCheck endSession
    rw [hm, tdRecord_turns, tdRecord_ended, he]
    simp [hn]
  constructor
  · show (checkTurnCompletion (sendFinalIfReady
        (tdEndCheck (tdRecord s key (finalTextOf s key t)) key
          (finalTextOf s key t)).1 key).1 key).1.sessionEnded = true
    rw [ctc_ended_pres, sfr_ended]
    exact hE.1
  · show (checkTurnCompletion (sendFinalIfReady
        (tdEndCheck (tdRecord s key (finalTextOf s key t)) key
          (finalTextOf s key t)).1 key).1 key).1.sessionEndReason
      = some EndReason.max_turns
    rw [ctc_reason_pres, sfr_reason]
    exact hE.2

/-- Witness for C5: at 39 finalized turns with incomplete coverage, a
marker-free candidate transcript ends the session with reason `max_turns`. -/
theorem c5_max_turns_witness :
    hasEndMarker (finalTextOf stateNearMax AiKey.ai_b "はい") = false ∧
    MAX_TURNS ≤ stateNearMax.totalTurns + 1 ∧
    ((step stateNearMax (InEvent.providerTranscriptDone AiKey.ai_b "はい")).1.sessionEnded = true ∧
     (step stateNearMax (InEvent.providerTranscriptDone AiKey.ai_b "はい")).1.sessionEndReason
       = some EndReason.max_turns) :=
  ⟨by decide, by decide, c5_max_turns stateNearMax AiKey.ai_b "はい" (by decide) (by decide) rfl⟩

end Interview

namespace Interview

/-- C9: coverage detection. (1) From all-false coverage, one interviewer
finalized utterance whose whitespace-normalized text contains a shift
keyword and no keyword of the other five topics flips exactly the shift
flag. (2) Each coverage flag, once true, is never un-flipped by any later
text. (3) Detection is whitespace-normalized: stripping whitespace from the
text first does not change the result. (4) Coverage is updated exactly on
interviewer finalized transcripts (via `updateCoverage` on the final text)
and candidate finalized transcripts leave it unchanged. -/
theorem c9_shift_coverage :
    (∀ t : String,
      hitsAny (stripWs t) shiftKeys = true →
      hitsAny (stripWs t) experienceKeys = false →
      hitsAny (stripWs t) motivationKeys = false →
      hitsAny (stripWs t) languageKeys = false →
      hitsAny (stripWs t) staminaKeys = false →
      hitsAny (stripWs t) visaKeys = false →
      (step stateOpen (InEvent.providerTranscriptDone AiKey.ai_a t)).1.coverage =
        { experience := false, motivation := false, language := false,
          shift := true, stamina := false, visa := false }) ∧
    (∀ (cov : Coverage) (t : String),
      (cov.experience = true → (updateCoverage cov t).experience = true) ∧
      (cov.motivation = true → (updateCoverage cov t).motivation = true) ∧
      (cov.language = true → (updateCoverage cov t).language = true) ∧
      (cov.shift = true → (updateCoverage cov t).shift = true) ∧
      (cov.stamina = true → (updateCoverage cov t).stamina = true) ∧
      (cov.visa = true → (updateCoverage cov t).visa = true)) ∧
    (∀ (cov : Coverage) (t : String),
      updateCoverage cov (stripWs t) = updateCoverage cov t) ∧
    (∀ (s : CoordState) (t : String),
      (step s (InEvent.providerTranscriptDone AiKey.ai_a t)).1.coverage
        = updateCoverage s.coverage (finalTextOf s AiKey.ai_a t)) ∧
    (∀ (s : CoordState) (t : String),
      (step s (InEvent.providerTranscriptDone AiKey.ai_b t)).1.coverage
        = s.coverage) := by
  refine ⟨?_, ?_, ?_, stepCoverage_a, stepCoverage_b⟩
  · intro t h1 h2 h3 h4 h5 h6
    rw [stepCoverage_a]
    by_cases ht : t = ""
    · subst ht
      exact absurd h1 (by decide)
    · have hft : finalTextOf stateOpen AiKey.ai_a t = t := by
        unfold finalTextOf
        rw [if_neg ht]
      rw [hft]
      unfold updateCoverage
      dsimp only
      have hne : ¬ (stripWs t = "") := by
        intro h0
        rw [h0] at h1
        exact absurd h1 (by decide)
      rw [if_neg hne]
      show Coverage.mk _ _ _ _ _ _ = _
      rw [h1, h2, h3, h4, h5, h6]
      rfl
  · intro cov t
    unfold updateCoverage
    dsimp only
    split
    · exact ⟨fun h => h, fun h => h, fun h => h, fun h => h, fun h => h, fun h => h⟩
    · refine ⟨fun h => ?_, fun h => ?_, fun h => ?_, fun h => ?_, fun h => ?_, fun h => ?_⟩ <;>
        simp [h]
  · intro cov t
    unfold updateCoverage
    dsimp only
    rw [stripWs_idem]

/-- Witness for C9 on the utterance "夜勤について": only the shift flag
flips. -/
theorem c9_shift_coverage_witness :
    hitsAny (stripWs "夜勤について") shiftKeys = true ∧
    hitsAny (stripWs "夜勤について") experienceKeys = false ∧
    (step stateOpen (InEvent.providerTranscriptDone AiKey.ai_a "夜勤について")).1.coverage =
      { experience := false, motivation := false, language := false,
        shift := true, stamina := false, visa := false } :=
  ⟨by decide, by decide,
    c9_shift_coverage.1 "夜勤について" (by decide) (by decide) (by decide) (by decide)
      (by decide) (by decide)⟩

end Interview

namespace Interview

/-- C1 counterexample: in a running session whose interviewer turn is in
flight (all three per-turn flags false), processing a `user_done` event
nevertheless issues a generation request for the interviewer. -/
theorem c1_counterexample :
    stateMidTurn.audioDone.get AiKey.ai_a = false ∧
    stateMidTurn.transcriptDone.get AiKey.ai_a = false ∧
    stateMidTurn.playbackDone.get AiKey.ai_a = false ∧
    requestsOf (step stateMidTurn (InEvent.clientUserDone 1000)).2 = [AiKey.ai_a] := by
  decide

/-- C1 (amended): completion-triggered advancement requires all three
per-turn flags. Processing a provider audio-done, a provider
transcript-done, or a playback acknowledgment for a role while the other
two flags of that role are not both already true issues no generation
request (user_done, start and manual request_ai can issue requests
independently of the flags). -/
theorem c1_completion_gate (s : CoordState) (key : AiKey) (t : String) (tid : Nat) :
    ((s.transcriptDone.get key = false ∨ s.playbackDone.get key = false) →
      requestsOf (step s (InEvent.providerAudioDone key)).2 = []) ∧
    ((s.audioDone.get key = false ∨ s.playbackDone.get key = false) →
      requestsOf (step s (InEvent.providerTranscriptDone key t)).2 = []) ∧
    ((s.audioDone.get key = false ∨ s.transcriptDone.get key = false) →
      requestsOf (step s (InEvent.clientPlaybackDone key (some tid))).2 = []) := by
  refine ⟨?_, ?_, ?_⟩
  · intro h
    have hctc : checkTurnCompletion
        (sendFinalIfReady { s with audioDone := s.audioDone.set key true } key).1 key
        = ((sendFinalIfReady { s with audioDone := s.audioDone.set key true } key).1, []) := by
      apply ctc_flag
      rcases h with h | h
      · refine Or.inr (Or.inl ?_)
        rw [sfr_transcriptDone]
        exact h
      · refine Or.inr (Or.inr ?_)
        rw [sfr_playback]
        exact h
    show requestsOf (([Output.audioDoneMsg key (s.currentTurn.get key)] ++
        (sendFinalIfReady { s with audioDone := s.audioDone.set key true } key).2) ++
        (checkTurnCompletion
          (sendFinalIfReady { s with audioDone := s.audioDone.set key true } key).1 key).2) = []
    rw [hctc, requestsOf_append, requestsOf_append, sfr_requests]
    rfl
  · intro h
    have hctc : checkTurnCompletion
        (sendFinalIfReady (tdEndCheck (tdRecord s key (finalTextOf s key t)) key
          (finalTextOf s key t)).1 key).1 key
        = ((sendFinalIfReady (tdEndCheck (tdRecord s key (finalTextOf s key t)) key
            (finalTextOf s key t)).1 key).1, []) := by
      apply ctc_flag
      rcases h with h | h
      · refine Or.inl ?_
        rw [sfr_audio, tdEndCheck_audio, tdRecord_audio]
        exact h
      · refine Or.inr (Or.inr ?_)
        rw [sfr_playback, tdEndCheck_playback, tdRecord_playback]
        exact h
    show requestsOf
        (((tdEndCheck (tdRecord s key (finalTextOf s key t)) key (finalTextOf s key t)).2 ++
          (sendFinalIfReady (tdEndCheck (tdRecord s key (finalTextOf s key t)) key
            (finalTextOf s key t)).1 key).2) ++
          (checkTurnCompletion (sendFinalIfReady (tdEndCheck
            (tdRecord s key (finalTextOf s key t)) key (finalTextOf s key t)).1 key).1 key).2 ++
          crossInject (checkTurnCompletion (sendFinalIfReady (tdEndCheck
            (tdRecord s key (finalTextOf s key t)) key (finalTextOf s key t)).1 key).1 key).1
            key (finalTextOf s key t)) = []
    rw [hctc, requestsOf_append, requestsOf_append, requestsOf_append,
      tdEndCheck_requests, sfr_requests, crossInject_requests]
    rfl
  · intro h
    show requestsOf (onPlaybackDone s key (some tid)).2 = []
    unfold onPlaybackDone acceptPlayback
    dsimp only
    have hc : checkTurnCompletion
        { s with playbackDone := s.playbackDone.set key true } key
        = ({ s with playbackDone := s.playbackDone.set key true }, []) := by
      apply ctc_flag
      rcases h with h | h
      · exact Or.inl h
      · exact Or.inr (Or.inl h)
    split
    · rfl
    · rw [hc]
      rfl

/-- Witness for C1 (amended): in the fresh running state (all flags false),
none of the three turn-progress events issues a request. -/
theorem c1_completion_gate_witness :
    stateOpen.transcriptDone.get AiKey.ai_a = false ∧
    requestsOf (step stateOpen (InEvent.providerAudioDone AiKey.ai_a)).2 = [] ∧
    requestsOf (step stateOpen (InEvent.providerTranscriptDone AiKey.ai_a "はい")).2 = [] ∧
    requestsOf (step stateOpen (InEvent.clientPlaybackDone AiKey.ai_a (some 0))).2 = [] := by
  have h := c1_completion_gate stateOpen AiKey.ai_a "はい" 0
  exact ⟨rfl, h.1 (Or.inl rfl), h.2.1 (Or.inl rfl), h.2.2 (Or.inl rfl)⟩

end Interview

namespace Interview

/-- C3 counterexample: interviewer transcript with the closing marker while
the guard fails only on `totalTurns` (coverage already complete): the
session stays running, but no corrective context is injected into the
interviewer's conversation, because the missing-topics list is empty. -/
theorem c3_counterexample :
    hasEndMarker "【面接終了】" = true ∧
    stateGuardMin.totalTurns + 1 < MIN_TURNS ∧
    stateGuardMin.sessionEnded = false ∧
    (step stateGuardMin (InEvent.providerTranscriptDone AiKey.ai_a "【面接終了】")).1.sessionEnded
      = false ∧
    injectionsTo AiKey.ai_a
      (step stateGuardMin (InEvent.providerTranscriptDone AiKey.ai_a "【面接終了】")).2 = [] := by
  decide

/-- C3 (amended): an interviewer finalized transcript with a closing marker
whose guard fails (post-increment `totalTurns` below `MIN_TURNS`, or
coverage incomplete) never ends the session; and whenever the interviewer's
socket is open and at least one topic is still missing, a corrective text
context naming exactly the still-missing topics is injected into the
interviewer's own conversation (when no topic is missing, nothing is
injected). -/
theorem c3_marker_guard (s : CoordState) (t : String)
    (hm : hasEndMarker (finalTextOf s AiKey.ai_a t) = true)
    (hg : (decide (MIN_TURNS ≤ s.totalTurns + 1) &&
           hasAllCoverage (updateCoverage s.coverage (finalTextOf s AiKey.ai_a t))) = false)
    (he : s.sessionEnded = false) :
    (step s (InEvent.providerTranscriptDone AiKey.ai_a t)).1.sessionEnded = false ∧
    (s.socketOpen.get AiKey.ai_a = true →
      listMissingCoverage (updateCoverage s.coverage (finalTextOf s AiKey.ai_a t)) ≠ "" →
      injectionsTo AiKey.ai_a (step s (InEvent.providerTranscriptDone AiKey.ai_a t)).2 =
        [correctiveText (listMissingCoverage (updateCoverage s.coverage
          (finalTextOf s AiKey.ai_a t)))]) := by
  constructor
  · have hE : (tdEndCheck (tdRecord s AiKey.ai_a (finalTextOf s AiKey.ai_a t)) AiKey.ai_a
        (finalTextOf s AiKey.ai_a t)).1.sessionEnded = false := by
      unfold tdEndCheck
      rw [hm, tdRecord_turns, tdRecord_coverage_a, hg]
      rw [if_pos rfl]
      rw [if_neg (by decide : ¬ (false = true))]
      rw [if_pos (rfl : AiKey.ai_a = AiKey.ai_a)]
      split <;> simp [tdRecord_ended, he]
    show (checkTurnCompletion (sendFinalIfReady (tdEndCheck (tdRecord s AiKey.ai_a
        (finalTextOf s AiKey.ai_a t)) AiKey.ai_a (finalTextOf s AiKey.ai_a t)).1
        AiKey.ai_a).1 AiKey.ai_a).1.sessionEnded = false
    rw [ctc_ended_pres, sfr_ended]
    exact hE
  · intro hsock hmiss
    have hbne : (listMissingCoverage (updateCoverage s.coverage
        (finalTextOf s AiKey.ai_a t)) != "") = true := bne_iff_ne.mpr hmiss
    have h1 : tdEndCheck (tdRecord s AiKey.ai_a (finalTextOf s AiKey.ai_a t)) AiKey.ai_a
        (finalTextOf s AiKey.ai_a t)
        = (tdRecord s AiKey.ai_a (finalTextOf s AiKey.ai_a t),
           [Output.injectContext AiKey.ai_a (correctiveText (listMissingCoverage
             (updateCoverage s.coverage (finalTextOf s AiKey.ai_a t))))]) := by
      unfold tdEndCheck
      rw [hm, tdRecord_turns, tdRecord_coverage_a, hg, tdRecord_sockets, hsock, hbne]
      rw [if_pos rfl]
      rw [if_neg (by decide : ¬ (false = true))]
      rw [if_pos (rfl : AiKey.ai_a = AiKey.ai_a)]
      exact if_pos rfl
    show injectionsTo AiKey.ai_a
        (((tdEndCheck (tdRecord s AiKey.ai_a (finalTextOf s AiKey.ai_a t)) AiKey.ai_a
            (finalTextOf s AiKey.ai_a t)).2 ++
          (sendFinalIfReady (tdEndCheck (tdRecord s AiKey.ai_a (finalTextOf s AiKey.ai_a t))
            AiKey.ai_a (finalTextOf s AiKey.ai_a t)).1 AiKey.ai_a).2) ++
          (checkTurnCompletion (sendFinalIfReady (tdEndCheck (tdRecord s AiKey.ai_a
            (finalTextOf s AiKey.ai_a t)) AiKey.ai_a (finalTextOf s AiKey.ai_a t)).1
            AiKey.ai_a).1 AiKey.ai_a).2 ++
          crossInject (checkTurnCompletion (sendFinalIfReady (tdEndCheck (tdRecord s
            AiKey.ai_a (finalTextOf s AiKey.ai_a t)) AiKey.ai_a
            (finalTextOf s AiKey.ai_a t)).1 AiKey.ai_a).1 AiKey.ai_a).1 AiKey.ai_a
            (finalTextOf s AiKey.ai_a t)) =
        [correctiveText (listMissingCoverage (updateCoverage s.coverage
          (finalTextOf s AiKey.ai_a t)))]
    rw [h1, injectionsTo_append, injectionsTo_append, injectionsTo_append,
      sfr_injections, ctc_injections, crossInject_self]
    rfl

/-- Witness for C3 (amended): five turns, only the shift topic missing; the
marker is ignored and exactly "シフト・夜勤" is named in the corrective
injection. -/
theorem c3_marker_guard_witness :
    (step stateMissingShift (InEvent.providerTranscriptDone AiKey.ai_a "【面接終了】")).1.sessionEnded
      = false ∧
    injectionsTo AiKey.ai_a
      (step stateMissingShift (InEvent.providerTranscriptDone AiKey.ai_a "【面接終了】")).2 =
      [correctiveText "シフト・夜勤"] := by
  have h := c3_marker_guard stateMissingShift "【面接終了】" (by decide) (by decide) rfl
  refine ⟨h.1, ?_⟩
  rw [h.2 rfl (by decide)]
  decide

end Interview

namespace Interview

/-- C4 counterexample: a fresh human utterance matching both keyword sets
("経験" candidate-directed, "シフト" interviewer-directed) routes to `both`,
but the resulting generation order is interviewer first (the immediate
request targets `ai_a`) with the candidate only queued second — not
candidate first. -/
theorem c4_counterexample :
    pickNextSpeaker stateBothHints.lastUserTranscript = some Route.both ∧
    requestsOf (step stateBothHints (InEvent.clientUserDone 2000)).2 = [AiKey.ai_a] ∧
    (step stateBothHints (InEvent.clientUserDone 2000)).1.queuedNextKeys = [AiKey.ai_b] := by
  decide

/-- C4 (amended): when the fresh (within 5 seconds) last human utterance
matches both keyword sets the routing decision is `both` and generation
order is interviewer first, then candidate (the immediate request targets
the interviewer and the candidate is queued); when the decision is `none`
or the utterance is stale, the coordinator defaults to requesting the
interviewer with an empty queue. -/
theorem c4_routing (s : CoordState) (now : Nat)
    (hauto : s.autoMode = true) (hend : s.sessionEnded = false)
    (hopen : s.socketOpen.get AiKey.ai_a = true) :
    (pickNextSpeaker s.lastUserTranscript = some Route.both →
      now - s.lastUserTranscriptAt < 5000 →
      requestsOf (step s (InEvent.clientUserDone now)).2 = [AiKey.ai_a] ∧
      (step s (InEvent.clientUserDone now)).1.queuedNextKeys = [AiKey.ai_b]) ∧
    ((pickNextSpeaker s.lastUserTranscript = none ∨ 5000 ≤ now - s.lastUserTranscriptAt) →
      requestsOf (step s (InEvent.clientUserDone now)).2 = [AiKey.ai_a] ∧
      (step s (InEvent.clientUserDone now)).1.queuedNextKeys = []) := by
  have hc1 : (s.autoMode && !s.sessionEnded) = true := by
    rw [hauto, hend]
    rfl
  constructor
  · intro hpick hfresh
    have hu : s.lastUserTranscript ≠ "" := by
      intro h0
      rw [h0] at hpick
      exact absurd hpick (by decide)
    have hc2 : (s.lastUserTranscript != "" &&
        decide (now - s.lastUserTranscriptAt < 5000)) = true := by
      rw [bne_iff_ne.mpr hu, decide_eq_true hfresh]
      rfl
    have hstep : step s (InEvent.clientUserDone now)
        = requestAiResponse
            { s with userSpeaking := false, queuedNextKeys := [AiKey.ai_b] } AiKey.ai_a := by
      show onUserDone s now = _
      unfold onUserDone
      dsimp only
      rw [if_pos hc1, if_pos hc2, hpick]
    rw [hstep]
    refine ⟨?_, ?_⟩ <;> simp [requestAiResponse, hopen, requestsOf]
  · intro hcase
    have hstep2 : step s (InEvent.clientUserDone now)
        = requestAiResponse
            { s with userSpeaking := false, queuedNextKeys := [] } AiKey.ai_a := by
      show onUserDone s now = _
      unfold onUserDone
      dsimp only
      rw [if_pos hc1]
      rcases hcase with hnone | hstale
      · by_cases hfr : (s.lastUserTranscript != "" &&
            decide (now - s.lastUserTranscriptAt < 5000)) = true
        · rw [if_pos hfr, hnone]
        · rw [if_neg hfr]
      · have hd : decide (now - s.lastUserTranscriptAt < 5000) = false :=
          decide_eq_false (Nat.not_lt.mpr hstale)
        rw [if_neg (by rw [hd]; simp)]
    rw [hstep2]
    refine ⟨?_, ?_⟩ <;> simp [requestAiResponse, hopen, requestsOf]

/-- Witness for C4 (amended): the both-matching utterance "経験シフト",
fresh at `now = 2000` (routes interviewer first, candidate queued) and
stale at `now = 9999` (default interviewer, empty queue). -/
theorem c4_routing_witness :
    pickNextSpeaker stateBothHints.lastUserTranscript = some Route.both ∧
    (requestsOf (step stateBothHints (InEvent.clientUserDone 2000)).2 = [AiKey.ai_a] ∧
     (step stateBothHints (InEvent.clientUserDone 2000)).1.queuedNextKeys = [AiKey.ai_b]) ∧
    (requestsOf (step stateBothHints (InEvent.clientUserDone 9999)).2 = [AiKey.ai_a] ∧
     (step stateBothHints (InEvent.clientUserDone 9999)).1.queuedNextKeys = []) := by
  refine ⟨by decide, ?_, ?_⟩
  · exact (c4_routing stateBothHints 2000 rfl rfl rfl).1 (by decide) (by decide)
  · exact (c4_routing stateBothHints 9999 rfl rfl rfl).2 (Or.inr (by decide))

end Interview

namespace Interview

/-- C6 counterexample: a candidate (not interviewer) finalized transcript
containing the closing marker, with the min-turns/coverage guard satisfied,
does transition the session to ended with reason `marker`. -/
theorem c6_counterexample :
    (step stateCovDone (InEvent.providerTranscriptDone AiKey.ai_b "【面接終了】")).1.sessionEnded
      = true ∧
    (step stateCovDone (InEvent.providerTranscriptDone AiKey.ai_b "【面接終了】")).1.sessionEndReason
      = some EndReason.marker := by
  decide

/-- C6 (amended): end-of-session evaluation runs on every finalized
transcript of either role, not only the interviewer's: for any role, a
transcript containing a closing marker with `totalTurns` reaching
`MIN_TURNS` and full coverage ends the session with reason `marker` (only
the coverage update and the corrective injection are interviewer-only). -/
theorem c6_marker_any_role (s : CoordState) (key : AiKey) (t : String)
    (hm : hasEndMarker (finalTextOf s key t) = true)
    (hn : MIN_TURNS ≤ s.totalTurns + 1)
    (hc : hasAllCoverage s.coverage = true)
    (he : s.sessionEnded = false) :
    (step s (InEvent.providerTranscriptDone key t)).1.sessionEnded = true ∧
    (step s (InEvent.providerTranscriptDone key t)).1.sessionEndReason
      = some EndReason.marker := by
  have hcov1 : hasAllCoverage (tdRecord s key (finalTextOf s key t)).coverage = true := by
    cases key
    · rw [tdRecord_coverage_a]
      exact hasAll_update _ _ hc
    · rw [tdRecord_coverage_b]
      exact hc
  have hE : (tdEndCheck (tdRecord s key (finalTextOf s key t)) key
        (finalTextOf s key t)).1.sessionEnded = true ∧
      (tdEndCheck (tdRecord s key (finalTextOf s key t)) key
        (finalTextOf s key t)).1.sessionEndReason = some EndReason.marker := by
    unfold tdEndCheck endSession
    rw [hm, tdRecord_turns, hcov1, tdRecord_ended, he]
    simp [hn]
  constructor
  · show (checkTurnCompletion (sendFinalIfReady
        (tdEndCheck (tdRecord s key (finalTextOf s key t)) key
          (finalTextOf s key t)).1 key).1 key).1.sessionEnded = true
    rw [ctc_ended_pres, sfr_ended]
    exact hE.1
  · show (checkTurnCompletion (sendFinalIfReady
        (tdEndCheck (tdRecord s key (finalTextOf s key t)) key
          (finalTextOf s key t)).1 key).1 key).1.sessionEndReason = some EndReason.marker
    rw [ctc_reason_pres, sfr_reason]
    exact hE.2

/-- Witness for C6 (amended): at 19 turns with full coverage, the second
marker "【面接中止】" in an interviewer transcript ends the session with
reason `marker`. -/
theorem c6_marker_any_role_witness :
    MIN_TURNS ≤ stateCovDone19.totalTurns + 1 ∧
    hasAllCoverage stateCovDone19.coverage = true ∧
    ((step stateCovDone19 (InEvent.providerTranscriptDone AiKey.ai_a "【面接中止】")).1.sessionEnded
       = true ∧
     (step stateCovDone19 (InEvent.providerTranscriptDone AiKey.ai_a "【面接中止】")).1.sessionEndReason
       = some EndReason.marker) :=
  ⟨by decide, by decide,
    c6_marker_any_role stateCovDone19 AiKey.ai_a "【面接中止】" (by decide) (by decide)
      (by decide) rfl⟩

/-- C7 counterexample: with the session already ended, a manual `request_ai`
override message still issues a generation request. -/
theorem c7_counterexample :
    stateEnded.sessionEnded = true ∧
    requestsOf (step stateEnded (InEvent.clientRequestAi AiKey.ai_a)).2 = [AiKey.ai_a] := by
  decide

/-- C7 (amended): once `sessionEnded` is true (and auto mode is off, which
`endSession` establishes at the moment of ending), no event other than an
explicit `start` restart or a manual `request_ai` override issues a
generation request; and the event that transitions the session from running
to ended leaves the pending speaker queue empty. -/
theorem c7_ended_no_requests :
    (∀ (s : CoordState) (e : InEvent),
      s.sessionEnded = true → s.autoMode = false → isRestartOrOverride e = false →
      requestsOf (step s e).2 = []) ∧
    (∀ (s : CoordState) (key : AiKey) (t : String),
      s.sessionEnded = false →
      (step s (InEvent.providerTranscriptDone key t)).1.sessionEnded = true →
      (step s (InEvent.providerTranscriptDone key t)).1.queuedNextKeys = []) := by
  constructor
  · intro s e hend hauto hexempt
    cases e with
    | providerReady key =>
      show requestsOf (onReady s key).2 = []
      unfold onReady
      dsimp only
      split
      · rw [hauto]
        rfl
      · rfl
    | providerAudioDelta key data => exact onAudioDelta_requests s key data
    | providerAudioDone key =>
      have hc : checkTurnCompletion
          (sendFinalIfReady { s with audioDone := s.audioDone.set key true } key).1 key
          = ((sendFinalIfReady { s with audioDone := s.audioDone.set key true } key).1, []) := by
        apply ctc_noauto
        rw [sfr_auto]
        exact hauto
      show requestsOf (([Output.audioDoneMsg key (s.currentTurn.get key)] ++
          (sendFinalIfReady { s with audioDone := s.audioDone.set key true } key).2) ++
          (checkTurnCompletion
            (sendFinalIfReady { s with audioDone := s.audioDone.set key true } key).1 key).2) = []
      rw [hc, requestsOf_append, requestsOf_append, sfr_requests]
      rfl
    | providerTranscriptDelta key delta => exact onTranscriptDelta_requests s key delta
    | providerTranscriptDone key t =>
      have hc : checkTurnCompletion (sendFinalIfReady (tdEndCheck
          (tdRecord s key (finalTextOf s key t)) key (finalTextOf s key t)).1 key).1 key
          = ((sendFinalIfReady (tdEndCheck (tdRecord s key (finalTextOf s key t)) key
              (finalTextOf s key t)).1 key).1, []) := by
        apply ctc_noauto
        rw [sfr_auto]
        exact tdEndCheck_auto_false _ _ _ (by rw [tdRecord_auto]; exact hauto)
      show requestsOf
          (((tdEndCheck (tdRecord s key (finalTextOf s key t)) key (finalTextOf s key t)).2 ++
            (sendFinalIfReady (tdEndCheck (tdRecord s key (finalTextOf s key t)) key
              (finalTextOf s key t)).1 key).2) ++
            (checkTurnCompletion (sendFinalIfReady (tdEndCheck
              (tdRecord s key (finalTextOf s key t)) key (finalTextOf s key t)).1 key).1 key).2 ++
            crossInject (checkTurnCompletion (sendFinalIfReady (tdEndCheck
              (tdRecord s key (finalTextOf s key t)) key (finalTextOf s key t)).1 key).1 key).1
              key (finalTextOf s key t)) = []
      rw [hc, requestsOf_append, requestsOf_append, requestsOf_append,
        tdEndCheck_requests, sfr_requests, crossInject_requests]
      rfl
    | providerInputTranscriptDone key now t => exact onInputTranscriptDone_requests s key now t
    | clientStart => exact Bool.noConfusion hexempt
    | clientRequestAi target => exact Bool.noConfusion hexempt
    | clientUserAudio data => exact onUserAudio_requests s data
    | clientUserAudioCommit => exact onUserAudioCommit_requests s
    | clientUserSpeaking => rfl
    | clientUserDone now =>
      show requestsOf (onUserDone s now).2 = []
      unfold onUserDone
      dsimp only
      rw [hauto, hend]
      rfl
    | clientPlaybackDone target tid =>
      cases tid with
      | none =>
        show requestsOf (checkTurnCompletion
            { s with playbackDone := s.playbackDone.set target true } target).2 = []
        rw [ctc_noauto { s with playbackDone := s.playbackDone.set target true } target hauto]
        rfl
      | some tid2 =>
        show requestsOf ((if tid2 ≠ s.currentTurn.get target then ((s, []) : CoordState × List Output)
            else checkTurnCompletion
              { s with playbackDone := s.playbackDone.set target true } target)).2 = []
        split
        · rfl
        · rw [ctc_noauto { s with playbackDone := s.playbackDone.set target true } target hauto]
          rfl
  · intro s key t hend h2
    rcases tdEndCheck_ends (tdRecord s key (finalTextOf s key t)) key (finalTextOf s key t) with
      ⟨hEd, hQ⟩ | hQ
    · exfalso
      have hfalse : (step s (InEvent.providerTranscriptDone key t)).1.sessionEnded = false := by
        show (checkTurnCompletion (sendFinalIfReady
            (tdEndCheck (tdRecord s key (finalTextOf s key t)) key
              (finalTextOf s key t)).1 key).1 key).1.sessionEnded = false
        rw [ctc_ended_pres, sfr_ended, hEd, tdRecord_ended]
        exact hend
      rw [h2] at hfalse
      exact absurd hfalse (by decide)
    · show (checkTurnCompletion (sendFinalIfReady
          (tdEndCheck (tdRecord s key (finalTextOf s key t)) key
            (finalTextOf s key t)).1 key).1 key).1.queuedNextKeys = []
      apply ctc_queue_nil
      rw [sfr_queue]
      exact hQ

/-- Witness for C7 (amended): after an ended session, `user_done` issues no
request; and the transcript that ends a running session at `MAX_TURNS`
leaves the queue empty. -/
theorem c7_ended_no_requests_witness :
    stateEnded.sessionEnded = true ∧
    requestsOf (step stateEnded (InEvent.clientUserDone 0)).2 = [] ∧
    (step stateNearMax (InEvent.providerTranscriptDone AiKey.ai_b "はい")).1.sessionEnded = true ∧
    (step stateNearMax (InEvent.providerTranscriptDone AiKey.ai_b "はい")).1.queuedNextKeys = [] := by
  refine ⟨rfl, ?_, by decide, ?_⟩
  · exact c7_ended_no_requests.1 stateEnded (InEvent.clientUserDone 0) rfl rfl rfl
  · exact c7_ended_no_requests.2 stateNearMax AiKey.ai_b "はい" rfl (by decide)

end Interview
